import Mathlib

set_option autoImplicit false

/-!
Shallow embedding of the declaration type-checker in
`src/lib/Sema/TypeCheckDecl.cpp` (the `DeclChecker` visitor, its helper
`validateAttributes`, `checkGenericParams`, and the entry point
`TypeChecker::typeCheckDecl`).

External collaborators (the type-reference validator `TC.validateType`, the
pattern checker `TC.typeCheckPattern`, the expression checker
`TC.typeCheckExpression`, `TC.convertToMaterializable`, `TC.coerceToType` and
module lookup) are not part of the source file; they are modelled as oracle
functions packaged in `SemaEnv`.  Diagnostics are modelled as a list of
`DiagKind` values emitted in program order.
-/

namespace SwiftDeclCheck

/-- Diagnostic identifiers appearing in TypeCheckDecl.cpp. -/
inductive DiagKind where
  | nonprotocolInherit
  | requiresConformanceNonprotocol
  | varTypeNotMaterializable
  | whileConvertingVarInit
  | subscriptNotMember
  | operatorNotFunc
  | invalidArgCountForOperator
  | customOperatorAddressof
  | infixNotAnOperator
  | invalidInfixLeftInput
  | postfixNotAnOperator
  | invalidPostfixInput
  | invalidDeclAttributeAssignment
  | invalidDeclAttributeByref
  | invalidDeclAttributeAutoClosure
  | assignmentWithoutByref
  | assignmentNonvoid
  | conversionNotInstanceMethod
  | conversionParams
  | binopsInfixLeft
  | constructorNotMember
  | destructorNotMember
  | nonNominalExtension
  | oneofElementNotMaterializable
  deriving DecidableEq, Repr

/-- Semantic types (`swift::Type`).  Tuple elements carry a label, an element
type, and whether the element has a default initializer (`TupleTypeElt`);
archetypes carry an identity, a name, the protocols they conform to and an
optional positional index (`ArchetypeType`). -/
inductive Ty where
  | error
  | oneofTy (id : Nat)
  | structTy (id : Nat)
  | classTy (id : Nat)
  | protoTy (id : Nat)
  | tupleTy (elts : List (String × Ty × Bool))
  | fnTy (inp out : Ty)
  | polyFnTy (inp out : Ty)
  | lvalueTy (obj : Ty)
  | archetypeTy (id : Nat) (nm : String) (conformsTo : List Ty) (index : Option Nat)
  | unboundGenericTy (id : Nat)
  | paramRefTy (nm : String)
  deriving Repr

/-- Source `Type::isExistentialType()`: protocol types are the existentials of this
model (protocol compositions are not modelled). -/
def Ty.isExistentialType : Ty → Bool
  | .protoTy _ => true
  | _ => false

/-- Source `Type::is<ErrorType>()`. -/
def Ty.isErrorTy : Ty → Bool
  | .error => true
  | _ => false

/-- Source `Type::is<LValueType>()`. -/
def Ty.isLValueTy : Ty → Bool
  | .lvalueTy _ => true
  | _ => false

mutual
/-- Source `Type::isMaterializable()` (external to the source file; modelled from the
spec: a type is materialisable when it has no l-value layer, recursively
through tuples). -/
def Ty.isMaterializable : Ty → Bool
  | .lvalueTy _ => false
  | .tupleTy elts => eltsMaterializable elts
  | _ => true

/-- Materialisability of a tuple's element list. -/
def eltsMaterializable : List (String × Ty × Bool) → Bool
  | [] => true
  | (_, t, _) :: rest => t.isMaterializable && eltsMaterializable rest
end

/-- The "number of lexical arguments" computed at the top of
`validateAttributes`: the field count of the input tuple of an
`AnyFunctionType`, and −1 otherwise. -/
def numArguments : Ty → Int
  | .fnTy (.tupleTy elts) _ => elts.length
  | .polyFnTy (.tupleTy elts) _ => elts.length
  | _ => -1

/-- Source `AnyFunctionType::getInput()` (defaults to ErrorType off the function
case; the source only calls it where the cast is guaranteed to succeed). -/
def Ty.getFnInput : Ty → Ty
  | .fnTy i _ => i
  | .polyFnTy i _ => i
  | _ => .error

/-- Source `AnyFunctionType::getResult()` (same caveat as `Ty.getFnInput`). -/
def Ty.getFnResult : Ty → Ty
  | .fnTy _ r => r
  | .polyFnTy _ r => r
  | _ => .error

/-- Source `TupleType::getElementType(0)` where the source guarantees non-emptiness. -/
def Ty.tupleElt0 : Ty → Ty
  | .tupleTy ((_, t, _) :: _) => t
  | _ => .error

/-- Whether `Ty` is a tuple all of whose fields have an initializer
(the `AcceptsEmptyParamList` computation in the Conversion check). -/
def Ty.acceptsEmptyParamList : Ty → Bool
  | .tupleTy elts => elts.all (fun e => e.2.2)
  | _ => false

/-- Source `InfixData`: associativity and precedence.  `none` models the
default-constructed (invalid) `InfixData()`, for which `isInfix()` is false. -/
abbrev InfixAttrData := Nat × Nat

/-- The attribute set of a decl (`DeclAttributes`), restricted to the
attributes `validateAttributes` reads or writes. -/
structure DeclAttributes where
  infixAttr : Option InfixAttrData := none
  postfixAttr : Bool := false
  assignmentAttr : Bool := false
  conversionAttr : Bool := false
  byrefAttr : Bool := false
  autoClosureAttr : Bool := false
  deriving DecidableEq, Repr

/-- A value decl as seen by `validateAttributes`: its name, the dynamic-cast
facts the function queries, its computed type and its attribute set.
`inTUContext` models `dyn_cast<TranslationUnit>(VD->getDeclContext())`
succeeding. -/
structure VDecl where
  name : String
  isFuncDeclV : Bool := false
  isOperatorV : Bool := false
  isInstanceMemberV : Bool := false
  isPropertyV : Bool := false
  inTUContext : Bool := false
  type : Ty := .error
  attrs : DeclAttributes := {}
  deriving Repr

/-- Translation-unit information consumed by `validateAttributes`: the
unit's decls (only the `ValueDecl`s matter) and the imported modules, each
modelled by its list of value decls, in import order. -/
structure TUInfo where
  isLibrary : Bool := true
  decls : List VDecl := []
  importedMods : List (List VDecl) := []

/-- Source `Module::lookupValue` for a modelled module: the decls with the given
name (external point-lookup interface). -/
def lookupValue (mod : List VDecl) (nm : String) : List VDecl :=
  mod.filter (fun d => d.name == nm)

/-- The translation-unit scan of the infix-inheritance block
(`for (Decl *D : TU->Decls)`): the Infix attribute of the first same-name
decl that is infix, if any. -/
def searchTUInfixData (nm : String) : List VDecl → Option InfixAttrData
  | [] => none
  | d :: rest =>
    if d.name == nm && d.attrs.infixAttr.isSome then d.attrs.infixAttr
    else searchTUInfixData nm rest

/-- The inner `for (ValueDecl *Existing : Found)` loop of the imported-module
scan, with the source's exact control flow: a same-name infix hit overwrites
the current attribute and breaks; otherwise, if the current attribute is
already set the loop breaks without overwriting. -/
def scanFound (nm : String) (cur : Option InfixAttrData) :
    List VDecl → Option InfixAttrData
  | [] => cur
  | d :: rest =>
    if d.name == nm && d.attrs.infixAttr.isSome then d.attrs.infixAttr
    else if cur.isSome then cur
    else scanFound nm cur rest

/-- The outer `for (auto &ModPath : TU->getImportedModules())` loop.  Note:
the source contains no break out of this loop, so every imported module is
scanned even after a hit. -/
def scanModules (nm : String) (cur : Option InfixAttrData) :
    List (List VDecl) → Option InfixAttrData
  | [] => cur
  | m :: rest => scanModules nm (scanFound nm cur (lookupValue m nm)) rest

/-- Source `DeclChecker::validateAttributes` (TypeCheckDecl.cpp, lines 522–709),
returning the updated decl and the diagnostics emitted, in order. -/
def validateAttributes (tu : TUInfo) (vd0 : VDecl) : VDecl × List DiagKind := Id.run do
  let mut vd := vd0
  let mut diags : List DiagKind := []
  let numArgs : Int := numArguments vd0.type
  let isOp := vd0.isOperatorV

  -- Operators must be declared with 'func', not 'var'.
  if isOp then
    if !vd.isFuncDeclV then
      return (vd, diags ++ [.operatorNotFunc])
    if numArgs == 0 || numArgs > 2 then
      return ({ vd with attrs := { vd.attrs with infixAttr := none } },
              diags ++ [.invalidArgCountForOperator])
    if numArgs == 1 && vd.name == "&" then
      return (vd, diags ++ [.customOperatorAddressof])

  if vd.attrs.infixAttr.isSome then
    if !isOp then
      return ({ vd with attrs := { vd.attrs with infixAttr := none } },
              diags ++ [.infixNotAnOperator])
    if numArgs != 2 then
      return ({ vd with attrs := { vd.attrs with infixAttr := none } },
              diags ++ [.invalidInfixLeftInput])

  if vd.attrs.postfixAttr then
    if !isOp then
      return ({ vd with attrs := { vd.attrs with postfixAttr := false } },
              diags ++ [.postfixNotAnOperator])
    if numArgs != 1 then
      return ({ vd with attrs := { vd.attrs with postfixAttr := false } },
              diags ++ [.invalidPostfixInput])

  if vd.attrs.assignmentAttr then
    if !vd.isFuncDeclV || !vd.isOperatorV then
      diags := diags ++ [.invalidDeclAttributeAssignment]
      vd := { vd with attrs := { vd.attrs with assignmentAttr := false } }
    else if numArgs < 1 then
      diags := diags ++ [.assignmentWithoutByref]
      vd := { vd with attrs := { vd.attrs with assignmentAttr := false } }
    else
      let inputTy := vd.type.getFnInput
      let paramTy := match inputTy with
        | .tupleTy _ => inputTy.tupleElt0
        | _ => inputTy
      if !paramTy.isLValueTy then
        diags := diags ++ [.assignmentWithoutByref]
        vd := { vd with attrs := { vd.attrs with assignmentAttr := false } }
      else if !(match vd.type.getFnResult with | .tupleTy [] => true | _ => false) then
        diags := diags ++ [.assignmentNonvoid]

  if vd.attrs.conversionAttr then
    if !vd.isFuncDeclV || !vd.isInstanceMemberV then
      diags := diags ++ [.conversionNotInstanceMethod]
      vd := { vd with attrs := { vd.attrs with conversionAttr := false } }
    else if !vd.type.isErrorTy then
      let boundMethodTy := vd.type.getFnResult
      if !boundMethodTy.getFnInput.acceptsEmptyParamList then
        diags := diags ++ [.conversionParams]
        vd := { vd with attrs := { vd.attrs with conversionAttr := false } }

  -- Infix inheritance for operators that lack an Infix attribute.
  if vd.isOperatorV && !vd.attrs.infixAttr.isSome && numArgs != 1 then
    if vd.inTUContext then
      let mut cur := vd.attrs.infixAttr
      cur := match searchTUInfixData vd.name tu.decls with
        | some i => some i
        | none => cur
      if !cur.isSome then
        cur := scanModules vd.name cur tu.importedMods
      vd := { vd with attrs := { vd.attrs with infixAttr := cur } }
    if !vd.attrs.infixAttr.isSome then
      diags := diags ++ [.binopsInfixLeft]

  if vd.attrs.byrefAttr then
    diags := diags ++ [.invalidDeclAttributeByref]
    vd := { vd with attrs := { vd.attrs with byrefAttr := false } }

  if vd.attrs.autoClosureAttr then
    diags := diags ++ [.invalidDeclAttributeAutoClosure]
    vd := { vd with attrs := { vd.attrs with autoClosureAttr := false } }

  return (vd, diags)

/-! ## External collaborators: expressions, patterns, and the oracle bundle -/

/-- An initializer expression, abstracted to an identity plus the type the
expression checker computed for it (`Expr::getType()`). -/
structure ExprM where
  id : Nat
  ty : Ty
  deriving Repr

/-- Patterns (`swift::Pattern`): Named binds a var decl, Typed wraps a
subpattern with an annotation, Tuple and Paren group, Any is the wildcard. -/
inductive PatternM where
  | namedP (v : VDecl)
  | typedP (sub : PatternM) (ann : Ty)
  | tupleP (elts : List PatternM)
  | parenP (sub : PatternM)
  | anyP
  deriving Repr

/-- The external services the checker consumes (spec §6), as oracles:
`validate` is `TC.validateType` (`none` = failed, otherwise the resolved type
written into the `TypeLoc`); `patternCheck` is `TC.typeCheckPattern` (`none` =
failed, otherwise the elaborated pattern and its type); `exprCheck` is
`TC.typeCheckExpression`; `convToMat` is `TC.convertToMaterializable` (may
return null); `coerce` is `TC.coerceToType`. -/
structure SemaEnv where
  validate : Ty → Bool → Option Ty
  patternCheck : PatternM → Bool → Option (PatternM × Ty)
  exprCheck : ExprM → Option Ty → Option ExprM
  convToMat : ExprM → Option ExprM
  coerce : PatternM → Ty → Bool → Option (PatternM × Ty)

/-- One entry of `DeclChecker::checkInherited`: validate the `TypeLoc`; on
failure mark it invalid (`setInvalidType`, i.e. ErrorType); on success keep
the resolved type and diagnose `nonprotocol_inherit` when it is neither an
existential nor ErrorType. -/
def checkInheritedEntry (env : SemaEnv) (fp : Bool) (t : Ty) : Ty × List DiagKind :=
  match env.validate t fp with
  | none => (.error, [])
  | some t' =>
    if !t'.isExistentialType && !t'.isErrorTy then (t', [.nonprotocolInherit])
    else (t', [])

/-- Source `DeclChecker::checkInherited`, over the whole inheritance clause. -/
def checkInherited (env : SemaEnv) (fp : Bool) : List Ty → List Ty × List DiagKind
  | [] => ([], [])
  | t :: rest =>
    let (t', ds) := checkInheritedEntry env fp t
    let (ts, ds') := checkInherited env fp rest
    (t' :: ts, ds ++ ds')

/-! ## Generic parameters (`DeclChecker::checkGenericParams`) -/

/-- The kind of a requirement in a requirements clause. -/
inductive ReqKind where
  | conformance
  | sameType
  deriving DecidableEq, Repr

/-- A requirement (`swift::Requirement`).  For a Conformance requirement
`fstTy` is the subject and `sndTy` the protocol; for a SameType requirement
they are the first and second types.  The fields are the mutable slots the
checker poisons via `overrideSubject` / `overrideProtocol` /
`overrideFirstType` / `overrideSecondType`. -/
structure RequirementM where
  kind : ReqKind
  fstTy : Ty
  sndTy : Ty
  deriving Repr

/-- A generic type parameter (`GP.getAsTypeParam()`: a `TypeAliasDecl`), with
its inheritance clause and its mutable underlying-type slot. -/
structure TypeParamM where
  name : String
  inherited : List Ty
  underlying : Option Ty := none
  deriving Repr

/-- A generic parameter list with its requirements clause. -/
structure GenericParamListM where
  params : List TypeParamM
  reqs : List RequirementM
  deriving Repr

/-- Does this type refer to the generic parameter named `nm`? -/
def Ty.isParamRef (nm : String) : Ty → Bool
  | .paramRefTy n => n == nm
  | _ => false

/-- Parameter intake (the first loop of `checkGenericParams`): check each
parameter's inheritance clause in declaration order; the parameters are
registered with the builder under indices 0, 1, …. -/
def gpIntake (env : SemaEnv) (fp : Bool) : List TypeParamM → List TypeParamM × List DiagKind
  | [] => ([], [])
  | p :: rest =>
    let (inh', ds) := checkInherited env fp p.inherited
    let (ps, ds') := gpIntake env fp rest
    ({ p with inherited := inh' } :: ps, ds ++ ds')

/-- One requirement of the first requirements scan: for a Conformance
requirement, validate the protocol operand through a temporary `TypeLoc`
(the resolved type is discarded); on failure poison the protocol slot and do
not add the requirement to the builder; a validating but non-existential
protocol is diagnosed and poisoned likewise.  SameType requirements are added
untouched.  Returns the updated requirement, whether it was added to the
builder, and the diagnostics. -/
def gpScan1Step (env : SemaEnv) (fp : Bool) (req : RequirementM) :
    RequirementM × Bool × List DiagKind :=
  match req.kind with
  | .conformance =>
    match env.validate req.sndTy fp with
    | none => ({ req with sndTy := .error }, false, [])
    | some _ =>
      if !req.sndTy.isExistentialType then
        ({ req with sndTy := .error }, false, [.requiresConformanceNonprotocol])
      else (req, true, [])
  | .sameType => (req, true, [])

/-- The first requirements scan (second loop of `checkGenericParams`);
returns the updated requirements, the requirements added to the builder, and
the diagnostics. -/
def gpScan1 (env : SemaEnv) (fp : Bool) :
    List RequirementM → List RequirementM × List RequirementM × List DiagKind
  | [] => ([], [], [])
  | req :: rest =>
    let (req', add, ds) := gpScan1Step env fp req
    let (rs, brs, ds') := gpScan1 env fp rest
    (req' :: rs, (if add then [req'] else []) ++ brs, ds ++ ds')

/-- Modelled from the spec: the conformance set `ArchetypeBuilder` computes
for a parameter (`ArchetypeBuilder.cpp` is not part of the sources): the
union of the parameter's declared inherited protocols and the protocols of
the Conformance requirements in the builder whose subject is that
parameter. -/
def archConformances (brs : List RequirementM) (p : TypeParamM) : List Ty :=
  p.inherited ++
    ((brs.filter (fun r => r.kind == ReqKind.conformance && r.fstTy.isParamRef p.name)).map
      (fun r => r.sndTy))

/-- Modelled from the spec: `ArchetypeBuilder::assignArchetypes` plus the
"wire up the archetypes" loop (`Arch.first->getUnderlyingTypeLoc() = …`):
every registered parameter receives a fresh archetype carrying its
conformance set and positional index, written into its underlying-type
slot. -/
def assignArchetypes (base : Nat) (brs : List RequirementM) (params : List TypeParamM) :
    List TypeParamM :=
  params.mapIdx fun i p =>
    { p with underlying := some (.archetypeTy (base + i) p.name (archConformances brs p) (some i)) }

/-- One requirement of the second requirements scan: validate the pieces
deferred until archetypes exist — the subject of a Conformance requirement,
and both sides of a SameType requirement (a failed first side skips the
second) — poisoning failed operands to ErrorType. -/
def gpScan2Step (env : SemaEnv) (fp : Bool) (req : RequirementM) : RequirementM :=
  match req.kind with
  | .conformance =>
    match env.validate req.fstTy fp with
    | none => { req with fstTy := .error }
    | some _ => req
  | .sameType =>
    match env.validate req.fstTy fp with
    | none => { req with fstTy := .error }
    | some _ =>
      match env.validate req.sndTy fp with
      | none => { req with sndTy := .error }
      | some _ => req

/-- The second requirements scan (last loop of `checkGenericParams`).  The
requirements surviving this scan are added to the builder again, but the
builder is discarded at the end of `checkGenericParams`, so those additions
have no observable effect. -/
def gpScan2 (env : SemaEnv) (fp : Bool) (reqs : List RequirementM) : List RequirementM :=
  reqs.map (gpScan2Step env fp)

/-- Source `DeclChecker::checkGenericParams`.  `base` is the next fresh archetype
identity; the returned `Nat` is the advanced counter. -/
def checkGenericParams (env : SemaEnv) (fp : Bool) (base : Nat) :
    Option GenericParamListM → Option GenericParamListM × Nat × List DiagKind
  | none => (none, base, [])
  | some gpl =>
    let (params1, ds1) := gpIntake env fp gpl.params
    let (reqs1, brs, ds2) := gpScan1 env fp gpl.reqs
    let params2 := assignArchetypes base brs params1
    let reqs2 := gpScan2 env fp reqs1
    (some { params := params2, reqs := reqs2 }, base + params1.length, ds1 ++ ds2)

/-! ## The declaration visitor -/

/-- Events recording the calls the pattern-binding visitor makes into the
external checkers, in order (instrumentation of the oracle calls in
`visitPatternBindingDecl`). -/
inductive TraceEv where
  | evPatternCheck (fp : Bool)
  | evExprCheck
  | evConvMat
  | evCoerce
  deriving DecidableEq, Repr

/-- The checker-global mutable state: the fresh-archetype counter (the type
context's arena), the diagnostic stream, and the oracle-call trace. -/
structure TcState where
  nextArchId : Nat := 0
  diags : List DiagKind := []
  trace : List TraceEv := []
  deriving Repr

/-- Append diagnostics to the stream. -/
def TcState.diag (st : TcState) (ds : List DiagKind) : TcState :=
  { st with diags := st.diags ++ ds }

/-- Record an oracle call. -/
def TcState.ev (st : TcState) (e : TraceEv) : TcState :=
  { st with trace := st.trace ++ [e] }

mutual
/-- Source `DeclChecker::visitBoundVars`: walk the pattern; each bound var whose
type is not materialisable is diagnosed and overwritten with ErrorType, then
`validateAttributes` runs on it. -/
def visitBoundVars (tu : TUInfo) : PatternM → PatternM × List DiagKind
  | .tupleP elts =>
    let (es, ds) := visitBoundVarsList tu elts
    (.tupleP es, ds)
  | .parenP sub =>
    let (s, ds) := visitBoundVars tu sub
    (.parenP s, ds)
  | .typedP sub ann =>
    let (s, ds) := visitBoundVars tu sub
    (.typedP s ann, ds)
  | .namedP v =>
    let (v1, ds1) :=
      if !v.type.isMaterializable then
        ({ v with type := Ty.error }, [DiagKind.varTypeNotMaterializable])
      else (v, [])
    let (v2, ds2) := validateAttributes tu v1
    (.namedP v2, ds1 ++ ds2)
  | .anyP => (.anyP, [])

/-- The tuple-field recursion of `visitBoundVars`. -/
def visitBoundVarsList (tu : TUInfo) : List PatternM → List PatternM × List DiagKind
  | [] => ([], [])
  | p :: rest =>
    let (p', ds) := visitBoundVars tu p
    let (ps, ds') := visitBoundVarsList tu rest
    (p' :: ps, ds ++ ds')
end

/-- A `PatternBindingDecl`: its pattern (with the pattern's computed-type
slot tracked in `patType`), its optional initializer, and whether its decl
context is a module. -/
structure PBDState where
  inModule : Bool
  pattern : PatternM
  patType : Option Ty := none
  init : Option ExprM := none
  deriving Repr

/-- Source `DeclChecker::visitPatternBindingDecl`. -/
def visitPatternBindingDecl (env : SemaEnv) (tu : TUInfo) (fp sp : Bool)
    (pbd0 : PBDState) (st0 : TcState) : PBDState × TcState := Id.run do
  let mut pbd := pbd0
  let mut st := st0
  let delayCheckingPattern := !tu.isLibrary && pbd0.inModule
  if sp && !delayCheckingPattern then
    match pbd.init, pbd.patType with
    | some i0, some destTy =>
      st := st.ev .evExprCheck
      match env.exprCheck i0 (some destTy) with
      | none => st := st.diag [.whileConvertingVarInit]
      | some e' => pbd := { pbd with init := some e' }
    | _, _ => pure ()
    return (pbd, st)
  if pbd.init.isSome && !fp then
    let mut destTy : Option Ty := none
    match pbd.pattern with
    | .typedP _ _ =>
      st := st.ev (.evPatternCheck false)
      match env.patternCheck pbd.pattern false with
      | none => return (pbd, st)
      | some (p', t) =>
        pbd := { pbd with pattern := p', patType := some t }
        destTy := some t
    | _ => pure ()
    match pbd.init with
    | none => pure ()
    | some i0 =>
      st := st.ev .evExprCheck
      match env.exprCheck i0 destTy with
      | none =>
        if destTy.isSome then
          st := st.diag [.whileConvertingVarInit]
        return (pbd, st)
      | some e' =>
        let mut i := e'
        if destTy.isNone then
          st := st.ev .evConvMat
          match env.convToMat i with
          | some newInit => i := newInit
          | none => pure ()
        pbd := { pbd with init := some i }
        if destTy.isNone then
          st := st.ev .evCoerce
          match env.coerce pbd.pattern i.ty false with
          | none => return (pbd, st)
          | some (p', t) => pbd := { pbd with pattern := p', patType := some t }
  else if !fp || !delayCheckingPattern then
    st := st.ev (.evPatternCheck fp)
    match env.patternCheck pbd.pattern fp with
    | none => return (pbd, st)
    | some (p', t) => pbd := { pbd with pattern := p', patType := some t }
  let (p'', ds) := visitBoundVars tu pbd.pattern
  pbd := { pbd with pattern := p'' }
  st := st.diag ds
  return (pbd, st)

/-- A `SubscriptDecl`: its decl-context fact, its element `TypeLoc`, its
index pattern and its type slot. -/
structure SubscriptState where
  inTypeContext : Bool
  inModule : Bool := false
  elementTyLoc : Ty
  indices : PatternM
  type : Option Ty := none
  deriving Repr

/-- Source `DeclChecker::visitSubscriptDecl`. -/
def visitSubscriptDecl (env : SemaEnv) (fp sp : Bool)
    (sd0 : SubscriptState) (st0 : TcState) : SubscriptState × TcState :=
  if sp then (sd0, st0)
  else
    let st1 := if !sd0.inTypeContext then st0.diag [.subscriptNotMember] else st0
    let sd1 :=
      match env.validate sd0.elementTyLoc fp with
      | some t' => { sd0 with elementTyLoc := t' }
      | none => sd0
    let sd2 :=
      match env.patternCheck sd1.indices fp with
      | none => sd1
      | some (p', indexTy) =>
        { sd1 with indices := p', type := some (.fnTy indexTy sd1.elementTyLoc) }
    (sd2, st1)

/-- A `OneOfElementDecl`: whether its decl context is a `OneOfDecl` (struct
elements are ignored), the enclosing declared type, the argument `TypeLoc`
(`none` models a null argument type) and the type slot. -/
structure OneOfElemState where
  inOneOf : Bool
  enclosingTy : Ty := .error
  argumentTyLoc : Option Ty := none
  type : Option Ty := none
  inModule : Bool := false
  deriving Repr

/-- Source `DeclChecker::visitOneOfElementDecl`. -/
def visitOneOfElementDecl (env : SemaEnv) (fp sp : Bool)
    (ed0 : OneOfElemState) (st0 : TcState) : OneOfElemState × TcState :=
  if sp then (ed0, st0)
  else if !ed0.inOneOf then (ed0, st0)
  else
    let elemTy := ed0.enclosingTy
    match ed0.argumentTyLoc with
    | none => ({ ed0 with type := some elemTy }, st0)
    | some argTy =>
      match env.validate argTy fp with
      | none => (ed0, st0)
      | some argTy' =>
        let ed1 :=
          { ed0 with argumentTyLoc := some argTy', type := some (.fnTy argTy' elemTy) }
        let st1 :=
          if !argTy'.isMaterializable then st0.diag [.oneofElementNotMaterializable]
          else st0
        (ed1, st1)

/-- A `ConstructorDecl`: decl-context facts, generic parameters, the
externally computed `this` type, the implicit `this` decl's type slot, the
arguments pattern, the type slot, and the `ValueDecl` view consumed by
`validateAttributes`. -/
structure ConstructorState where
  inTypeContext : Bool
  inModule : Bool := false
  genericParams : Option GenericParamListM := none
  thisTy : Ty
  implicitThisTy : Option Ty := none
  argumentsP : PatternM
  type : Option Ty := none
  vd : VDecl := { name := "constructor" }
  deriving Repr

/-- Source `DeclChecker::visitConstructorDecl`. -/
def visitConstructorDecl (env : SemaEnv) (tu : TUInfo) (fp sp : Bool)
    (cd0 : ConstructorState) (st0 : TcState) : ConstructorState × TcState :=
  if sp then (cd0, st0)
  else
    let st1 := if !cd0.inTypeContext then st0.diag [.constructorNotMember] else st0
    let (gps', next', gds) := checkGenericParams env fp st1.nextArchId cd0.genericParams
    let cd1 := { cd0 with genericParams := gps' }
    let st2 := { st1.diag gds with nextArchId := next' }
    let thisTy := cd1.thisTy
    let cd2 := { cd1 with implicitThisTy := some thisTy }
    let cd3 :=
      match env.patternCheck cd2.argumentsP fp with
      | none => { cd2 with type := some .error }
      | some (p', argsTy) =>
        let fnTy : Ty :=
          if cd2.genericParams.isSome then .polyFnTy argsTy thisTy
          else .fnTy argsTy thisTy
        { cd2 with argumentsP := p', type := some fnTy }
    let (vd', ds) := validateAttributes tu { cd3.vd with type := (cd3.type.getD .error) }
    ({ cd3 with vd := vd' }, st2.diag ds)

/-- A `TypeAliasDecl` (also used for a protocol's associated types): its
name, whether its decl context is a protocol, its inheritance clause and its
mutable underlying-type slot. -/
structure TypeAliasState where
  name : String
  inProtocolContext : Bool := false
  inherited : List Ty := []
  underlying : Option Ty := none
  inModule : Bool := false
  deriving Repr

/-- Source `DeclChecker::visitTypeAliasDecl`: outside the second pass, validate the
underlying `TypeLoc` (the returned flag is discarded, so a failure leaves the
slot as it was) and, when not inside a protocol, check the inheritance
clause.  Outside the first pass the explicit-conformance check runs; its
diagnostics belong to the external conformance oracle and are not modelled. -/
def visitTypeAliasDecl (env : SemaEnv) (fp sp : Bool)
    (tad0 : TypeAliasState) (st0 : TcState) : TypeAliasState × TcState :=
  if sp then (tad0, st0)
  else
    let tad1 :=
      match tad0.underlying with
      | some u =>
        match env.validate u fp with
        | some u' => { tad0 with underlying := some u' }
        | none => tad0
      | none => tad0
    if !tad1.inProtocolContext then
      let (inh', ds) := checkInherited env fp tad1.inherited
      ({ tad1 with inherited := inh' }, st0.diag ds)
    else (tad1, st0)

/-- A member of a `ProtocolDecl`: an associated type alias or anything
else. -/
inductive ProtoMember where
  | aliasMem (a : TypeAliasState)
  | otherMem
  deriving Repr

/-- A `ProtocolDecl`: its inheritance clause and its members. -/
structure ProtocolState where
  inModule : Bool := false
  inherited : List Ty := []
  members : List ProtoMember
  deriving Repr

/-- The associated-type loop of `visitProtocolDecl`: for each type-alias
member, check its inheritance clause, then overwrite its underlying-type slot
with a freshly allocated archetype whose conformance set is the (checked)
inheritance list, with positional index 0 exactly for an alias named
`This`. -/
def protoAssignArchetypes (env : SemaEnv) (fp : Bool) :
    List ProtoMember → Nat → List ProtoMember × Nat × List DiagKind
  | [], n => ([], n, [])
  | .otherMem :: rest, n =>
    let (ms, n', ds) := protoAssignArchetypes env fp rest n
    (.otherMem :: ms, n', ds)
  | .aliasMem a :: rest, n =>
    let (inh', ds) := checkInherited env fp a.inherited
    let index : Option Nat := if a.name == "This" then some 0 else none
    let underlyingTy : Ty := .archetypeTy n a.name inh' index
    let a' := { a with inherited := inh', underlying := some underlyingTy }
    let (ms, n', ds') := protoAssignArchetypes env fp rest (n + 1)
    (.aliasMem a' :: ms, n', ds ++ ds')

/-- The member-visiting loop of `visitProtocolDecl` (type-alias members are
revisited through `visitTypeAliasDecl`; other member kinds are outside this
model). -/
def protoVisitMembers (env : SemaEnv) (fp sp : Bool) :
    List ProtoMember → TcState → List ProtoMember × TcState
  | [], st => ([], st)
  | .otherMem :: rest, st =>
    let (ms, st') := protoVisitMembers env fp sp rest st
    (.otherMem :: ms, st')
  | .aliasMem a :: rest, st =>
    let (a', st1) := visitTypeAliasDecl env fp sp a st
    let (ms, st2) := protoVisitMembers env fp sp rest st1
    (.aliasMem a' :: ms, st2)

/-- Source `DeclChecker::visitProtocolDecl`. -/
def visitProtocolDecl (env : SemaEnv) (fp sp : Bool)
    (pd0 : ProtocolState) (st0 : TcState) : ProtocolState × TcState :=
  if sp then (pd0, st0)
  else
    let (inh', ds1) := checkInherited env fp pd0.inherited
    let st1 := st0.diag ds1
    let (ms, n', ds2) := protoAssignArchetypes env fp pd0.members st1.nextArchId
    let st2 := { st1.diag ds2 with nextArchId := n' }
    let (ms', st3) := protoVisitMembers env fp sp ms st2
    ({ pd0 with inherited := inh', members := ms' }, st3)

/-- A member of a `StructDecl`: a `VarDecl` member, the (parser-synthesised)
`OneOfElementDecl` element constructor, or anything else. -/
inductive StructMember where
  | varMem (v : VDecl)
  | elemMem (e : OneOfElemState)
  | otherMem
  deriving Repr

/-- A `StructDecl`: its inheritance clause, generic parameters, declared
type (in context) and members. -/
structure StructState where
  inModule : Bool := false
  inherited : List Ty := []
  genericParams : Option GenericParamListM := none
  declaredTyInContext : Ty
  members : List StructMember
  deriving Repr

/-- The member-visiting loop of `visitStructDecl` restricted to the member
kinds of this model: `visitVarDecl` is a no-op, and `visitOneOfElementDecl`
ignores elements whose decl context is not a `OneOfDecl`. -/
def structVisitMembers (env : SemaEnv) (fp sp : Bool) :
    List StructMember → TcState → List StructMember × TcState
  | [], st => ([], st)
  | .varMem v :: rest, st =>
    let (ms, st') := structVisitMembers env fp sp rest st
    (.varMem v :: ms, st')
  | .otherMem :: rest, st =>
    let (ms, st') := structVisitMembers env fp sp rest st
    (.otherMem :: ms, st')
  | .elemMem e :: rest, st =>
    let (e', st1) := visitOneOfElementDecl env fp sp e st
    let (ms, st2) := structVisitMembers env fp sp rest st1
    (.elemMem e' :: ms, st2)

/-- The tuple-element collection of the implied-constructor synthesis: the
non-property `Var` members in declaration order, as labeled tuple elements
(`TupleTypeElt(VarD->getType(), VarD->getName())`, no initializer). -/
def structCtorFields (members : List StructMember) : List (String × Ty × Bool) :=
  members.filterMap fun m =>
    match m with
    | .varMem v => if !v.isPropertyV then some (v.name, v.type, false) else none
    | _ => none

/-- Overwrite the last member — which the source casts to a
`OneOfElementDecl` — with the synthesised element-constructor type and
argument `TypeLoc`.  If the last member is not an element decl the source's
`cast<>` is a checked-cast violation; the model leaves the list unchanged in
that case. -/
def structSetCtor (createTy argTy : Ty) : List StructMember → List StructMember
  | [] => []
  | [.elemMem e] => [.elemMem { e with type := some createTy, argumentTyLoc := some argTy }]
  | [m] => [m]
  | m :: rest => m :: structSetCtor createTy argTy rest

/-- Source `DeclChecker::visitStructDecl`. -/
def visitStructDecl (env : SemaEnv) (fp sp : Bool)
    (sd0 : StructState) (st0 : TcState) : StructState × TcState :=
  let (sd1, st1) :=
    if sp then (sd0, st0)
    else
      let (inh', ds) := checkInherited env fp sd0.inherited
      let (gps', next', gds) := checkGenericParams env fp st0.nextArchId sd0.genericParams
      ({ sd0 with inherited := inh', genericParams := gps' },
       { (st0.diag ds).diag gds with nextArchId := next' })
  let (ms, st2) := structVisitMembers env fp sp sd1.members st1
  let sd2 := { sd1 with members := ms }
  if sp then (sd2, st2)
  else
    let tupleElts := structCtorFields sd2.members
    let tt : Ty := .tupleTy tupleElts
    let createTy : Ty := .fnTy tt sd2.declaredTyInContext
    ({ sd2 with members := structSetCtor createTy tt sd2.members }, st2)

/-- The declarations covered by this model. -/
inductive DeclM where
  | importD
  | varD (v : VDecl)
  | patternBindingD (pbd : PBDState)
  | subscriptD (sd : SubscriptState)
  | oneOfElementD (ed : OneOfElemState)
  | constructorD (cd : ConstructorState)
  | structD (sd : StructState)
  | protocolD (pd : ProtocolState)
  deriving Repr

/-- Source `D->getDeclContext()->isModuleContext()`, as consulted by the entry
point. -/
def DeclM.inModuleContext : DeclM → Bool
  | .importD => false
  | .varD _ => false
  | .patternBindingD pbd => pbd.inModule
  | .subscriptD sd => sd.inModule
  | .oneOfElementD ed => ed.inModule
  | .constructorD cd => cd.inModule
  | .structD sd => sd.inModule
  | .protocolD pd => pd.inModule

/-- The decl's mutable type slot, for the kinds that carry one. -/
def DeclM.typeSlot : DeclM → Option Ty
  | .subscriptD sd => sd.type
  | .oneOfElementD ed => ed.type
  | .constructorD cd => cd.type
  | .varD v => some v.type
  | _ => none

/-- Source `TypeChecker::typeCheckDecl`: derive `isSecondPass` from the pass flag
and the decl context, then dispatch. -/
def typeCheckDecl (env : SemaEnv) (tu : TUInfo) (d : DeclM) (isFirstPass : Bool)
    (st : TcState) : DeclM × TcState :=
  let isSecondPass := !isFirstPass && d.inModuleContext
  match d with
  | .importD => (.importD, st)
  | .varD v => (.varD v, st)
  | .patternBindingD pbd =>
    let (pbd', st') := visitPatternBindingDecl env tu isFirstPass isSecondPass pbd st
    (.patternBindingD pbd', st')
  | .subscriptD sd =>
    let (sd', st') := visitSubscriptDecl env isFirstPass isSecondPass sd st
    (.subscriptD sd', st')
  | .oneOfElementD ed =>
    let (ed', st') := visitOneOfElementDecl env isFirstPass isSecondPass ed st
    (.oneOfElementD ed', st')
  | .constructorD cd =>
    let (cd', st') := visitConstructorDecl env tu isFirstPass isSecondPass cd st
    (.constructorD cd', st')
  | .structD sd =>
    let (sd', st') := visitStructDecl env isFirstPass isSecondPass sd st
    (.structD sd', st')
  | .protocolD pd =>
    let (pd', st') := visitProtocolDecl env isFirstPass isSecondPass pd st
    (.protocolD pd', st')

/-- The driver schedule the claims quantify over: `typeCheckDecl(D, true)`
followed, for module-scope decls, by `typeCheckDecl(D, false)`. -/
def runPasses (env : SemaEnv) (tu : TUInfo) (d : DeclM) (st : TcState) :
    DeclM × TcState :=
  let (d1, st1) := typeCheckDecl env tu d true st
  if d1.inModuleContext then typeCheckDecl env tu d1 false st1 else (d1, st1)

/-! ## The spec's phase description of `checkGenericParams` (§4.3)

The following definitions are written from the spec's wording, phase by
phase, for comparison with the source translation `checkGenericParams`. -/

/-- Following the spec: "validation failure" of a type operand. -/
def specValidateFails (env : SemaEnv) (fp : Bool) (t : Ty) : Bool :=
  (env.validate t fp).isNone

/-- Following the spec's first requirements scan: only the protocol operand
of a Conformance requirement is validated; a failed or non-existential
protocol operand is poisoned with ErrorType; SameType requirements are
deferred (left untouched). -/
def specFirstScanReq (env : SemaEnv) (fp : Bool) (r : RequirementM) : RequirementM :=
  match r.kind with
  | .conformance =>
    if specValidateFails env fp r.sndTy then { r with sndTy := .error }
    else if !r.sndTy.isExistentialType then { r with sndTy := .error }
    else r
  | .sameType => r

/-- Following the spec: the requirements surviving the first scan (added to
the builder before archetype assignment). -/
def specFirstScanSurvives (env : SemaEnv) (fp : Bool) (r : RequirementM) : Bool :=
  match r.kind with
  | .conformance => !specValidateFails env fp r.sndTy && r.sndTy.isExistentialType
  | .sameType => true

/-- Following the spec: the diagnostic the first scan emits for a validating
but non-existential protocol operand. -/
def specFirstScanDiags (env : SemaEnv) (fp : Bool) (r : RequirementM) : List DiagKind :=
  match r.kind with
  | .conformance =>
    if !specValidateFails env fp r.sndTy && !r.sndTy.isExistentialType then
      [.requiresConformanceNonprotocol]
    else []
  | .sameType => []

/-- Following the spec's second requirements scan: validate the deferred
pieces — the subject of a Conformance requirement, and both sides of a
SameType requirement (a failed first side skips the second) — poisoning
failed operands with ErrorType and continuing. -/
def specSecondScanReq (env : SemaEnv) (fp : Bool) (r : RequirementM) : RequirementM :=
  match r.kind with
  | .conformance =>
    if specValidateFails env fp r.fstTy then { r with fstTy := .error } else r
  | .sameType =>
    if specValidateFails env fp r.fstTy then { r with fstTy := .error }
    else if specValidateFails env fp r.sndTy then { r with sndTy := .error }
    else r

/-- The spec's four-phase pipeline for `checkGenericParams` (§4.3):
parameter intake, first requirements scan, archetype assignment over the
first-scan survivors, then the second requirements scan; the diagnostics
are those of the intake followed by those of the first scan. -/
def checkGenericParamsPhased (env : SemaEnv) (fp : Bool) (base : Nat) :
    Option GenericParamListM → Option GenericParamListM × Nat × List DiagKind
  | none => (none, base, [])
  | some gpl =>
    let params1 := gpl.params.map fun p =>
      { p with inherited := (checkInherited env fp p.inherited).1 }
    let intakeDiags := (gpl.params.map fun p => (checkInherited env fp p.inherited).2).flatten
    let reqs1 := gpl.reqs.map (specFirstScanReq env fp)
    let scan1Diags := (gpl.reqs.map (specFirstScanDiags env fp)).flatten
    let builderReqs := gpl.reqs.filter (specFirstScanSurvives env fp)
    let params2 := params1.mapIdx fun i p =>
      { p with
        underlying := some (.archetypeTy (base + i) p.name (archConformances builderReqs p) (some i)) }
    let reqs2 := reqs1.map (specSecondScanReq env fp)
    (some { params := params2, reqs := reqs2 }, base + gpl.params.length,
     intakeDiags ++ scan1Diags)

/-! ## Concrete inputs used by counterexamples and witnesses -/

/-- A binary operator type `(a : S₀, b : S₀) → S₀`. -/
def binOpTy : Ty :=
  .fnTy (.tupleTy [("a", .structTy 0, false), ("b", .structTy 0, false)]) (.structTy 0)

/-- A unary operator type `(a : S₀) → S₀`. -/
def unOpTy : Ty :=
  .fnTy (.tupleTy [("a", .structTy 0, false)]) (.structTy 0)

/-- A nullary function type `() → S₀`. -/
def nullFnTy : Ty := .fnTy (.tupleTy []) (.structTy 0)

/-- A translation-unit-scope binary operator `+` lacking an Infix attribute. -/
def cxPlus : VDecl :=
  { name := "+", isFuncDeclV := true, isOperatorV := true, inTUContext := true, type := binOpTy }

/-- An imported module declaring an infix `+` with precedence 100. -/
def cxModA : List VDecl :=
  [{ name := "+", isFuncDeclV := true, isOperatorV := true, type := binOpTy,
     attrs := { infixAttr := some (1, 100) } }]

/-- An imported module declaring an infix `+` with precedence 90. -/
def cxModB : List VDecl :=
  [{ name := "+", isFuncDeclV := true, isOperatorV := true, type := binOpTy,
     attrs := { infixAttr := some (1, 90) } }]

/-- An operator declared with `var` (not a function). -/
def cxVdA : VDecl := { name := "-", isOperatorV := true, type := binOpTy }

/-- A nullary operator function. -/
def cxVdB : VDecl := { name := "-", isOperatorV := true, isFuncDeclV := true, type := nullFnTy }

/-- A unary operator function named `&`. -/
def cxVdC : VDecl := { name := "&", isOperatorV := true, isFuncDeclV := true, type := unOpTy }

/-- An oracle bundle for concrete runs: type validation is the identity and
the other checkers succeed with canned results. -/
def envId : SemaEnv :=
  { validate := fun t _ => some t
    patternCheck := fun p _ => some (p, .tupleTy [])
    exprCheck := fun e _ => some e
    convToMat := fun e => some e
    coerce := fun p t _ => some (p, t) }

/-- An oracle bundle whose type validator rejects everything. -/
def envValFail : SemaEnv :=
  { envId with validate := fun _ _ => none }

/-- An oracle bundle whose pattern checker fails. -/
def envPatFail : SemaEnv :=
  { envId with patternCheck := fun _ _ => none }

/-- A concrete struct: one stored var `x : S₀`, one property var `p`, and the
parser-synthesised element constructor. -/
def cxStruct : StructState :=
  { inModule := false
    declaredTyInContext := .structTy 7
    members := [.varMem { name := "x", type := .structTy 0 },
                .varMem { name := "p", type := .structTy 1, isPropertyV := true },
                .elemMem { inOneOf := false }] }

/-- A `OneOfElementDecl` (inside a oneof) whose payload type will fail
validation under `envValFail`. -/
def cxBadElem : OneOfElemState :=
  { inOneOf := true, enclosingTy := .oneofTy 3, argumentTyLoc := some (.paramRefTy "X") }

/-- A `SubscriptDecl` whose index pattern will fail type-checking under
`envPatFail`. -/
def cxBadSubscript : SubscriptState :=
  { inTypeContext := true, elementTyLoc := .structTy 0, indices := .anyP }

/-- A top-level (non-type-context) `ConstructorDecl`. -/
def cxTopCtor : ConstructorState :=
  { inTypeContext := false, thisTy := .structTy 9, argumentsP := .anyP }

/-- An oracle bundle that rejects generic-parameter references and wildcard
patterns but accepts everything else. -/
def cxEnvMixed : SemaEnv :=
  { envId with
      validate := fun t _ => match t with | .paramRefTy _ => none | t' => some t'
      patternCheck := fun p _ => match p with | .anyP => none | p' => some (p', .tupleTy []) }

/-- A `OneOfElementDecl` whose payload validates under `cxEnvMixed`. -/
def cxGoodElem : OneOfElemState :=
  { inOneOf := true, enclosingTy := .oneofTy 3, argumentTyLoc := some (.structTy 2) }

/-- A `SubscriptDecl` whose index pattern checks under `cxEnvMixed`. -/
def cxGoodSubscript : SubscriptState :=
  { inTypeContext := true, elementTyLoc := .structTy 0,
    indices := .namedP { name := "i", type := .structTy 5 } }

/-- Is this pattern a `TypedPattern`? -/
def PatternM.isTypedPat : PatternM → Bool
  | .typedP _ _ => true
  | _ => false

/-- A module-scope pattern binding `var x : S₀ = e` with a typed pattern and
an initializer. -/
def cxPBD : PBDState :=
  { inModule := true, pattern := .typedP .anyP (.structTy 0),
    init := some { id := 1, ty := .structTy 0 } }

/-- The initializer expression used in pattern-binding scenarios. -/
def cxInitE : ExprM := { id := 1, ty := .structTy 0 }

/-- A non-module pattern binding with a Named (non-typed) pattern and an
initializer. -/
def cxPBD2 : PBDState :=
  { inModule := false, pattern := .namedP { name := "y", type := .structTy 0 },
    init := some cxInitE }

/-- A non-module pattern binding with no initializer. -/
def cxPBD3 : PBDState := { inModule := false, pattern := .anyP }

/-- The underlying-type slot of the first associated-type member of a
protocol, when one exists. -/
def protoFirstAliasUnderlying (pd : ProtocolState) : Option Ty :=
  match pd.members with
  | .aliasMem a :: _ => a.underlying
  | _ => none

/-- A protocol with a single associated type `A`. -/
def cxProto : ProtocolState :=
  { members := [.aliasMem { name := "A", inProtocolContext := true }] }

/-- A generic parameter list `<T : P₀ requires T : P₁>`. -/
def cxGpl : GenericParamListM :=
  { params := [{ name := "T", inherited := [.protoTy 0] }],
    reqs := [{ kind := .conformance, fstTy := .paramRefTy "T", sndTy := .protoTy 1 }] }

/-- C10: when attribute validation hits an operator shape violation it
returns early and leaves the rest of the attribute set untouched: a value
decl named as an operator that is not a function, an operator with 0 or more
than 2 arguments (only its Infix data is reset), and a 1-argument operator
named `&` each stop validation with exactly the shape diagnostic; the
remaining rules (including the Byref and AutoClosure checks) never run. -/
theorem claim_C10 (tu : TUInfo) (vd : VDecl)
    (hOp : vd.isOperatorV = true) :
    (vd.isFuncDeclV = false → validateAttributes tu vd = (vd, [.operatorNotFunc])) ∧
    (vd.isFuncDeclV = true → (numArguments vd.type = 0 ∨ 2 < numArguments vd.type) →
      validateAttributes tu vd =
        ({ vd with attrs := { vd.attrs with infixAttr := none } },
         [.invalidArgCountForOperator])) ∧
    (vd.isFuncDeclV = true → numArguments vd.type = 1 → vd.name = "&" →
      validateAttributes tu vd = (vd, [.customOperatorAddressof])) := by
  refine ⟨?_, ?_, ?_⟩
  · intro h
    simp [validateAttributes, Id.run, hOp, h]
  · intro h h2
    rcases h2 with h2 | h2
    · simp [validateAttributes, Id.run, hOp, h, h2]
    · simp [validateAttributes, Id.run, hOp, h, h2, Int.ne_of_gt h2, ne_of_gt h2]
  · intro h h1 hn
    simp [validateAttributes, Id.run, hOp, h, h1, hn]

end SwiftDeclCheck

namespace SwiftDeclCheck

/-- Witness for C10 at three concrete operators. -/
theorem claim_C10_witness :
    validateAttributes {} cxVdA = (cxVdA, [DiagKind.operatorNotFunc]) ∧
    validateAttributes {} cxVdB =
      ({ cxVdB with attrs := { cxVdB.attrs with infixAttr := none } },
       [DiagKind.invalidArgCountForOperator]) ∧
    validateAttributes {} cxVdC = (cxVdC, [DiagKind.customOperatorAddressof]) :=
  ⟨(claim_C10 {} cxVdA rfl).1 rfl,
   (claim_C10 {} cxVdB rfl).2.1 rfl (Or.inl (by decide)),
   (claim_C10 {} cxVdC rfl).2.2 rfl (by decide) rfl⟩

/-- Counterexample to C7 as stated: a 2-argument-style operator whose type
slot is ErrorType and which carries an Infix attribute draws the
`invalid_infix_left_input` diagnostic from attribute validation, so an
ErrorType decl can draw additional diagnostics. -/
theorem claim_C7_counterexample :
    (validateAttributes {}
      { name := "+", isFuncDeclV := true, isOperatorV := true, inTUContext := true,
        type := .error, attrs := { infixAttr := some (0, 100) } }).2
      = [DiagKind.invalidInfixLeftInput] := by
  decide

/-- C7 (amended): attribute validation on a value decl whose type is
ErrorType emits no Conversion diagnostic (that check is ErrorType-guarded),
but the arity-dependent infix check treats the non-function type as argument
count −1 and still diagnoses an ErrorType operator carrying an Infix
attribute, clearing it. -/
theorem claim_C7 (tu : TUInfo) (nm : String) (itu : Bool) (i : InfixAttrData) :
    (validateAttributes tu
       { name := nm, isFuncDeclV := true, isOperatorV := false, isInstanceMemberV := true,
         inTUContext := itu, type := .error, attrs := { conversionAttr := true } }
      = ({ name := nm, isFuncDeclV := true, isOperatorV := false, isInstanceMemberV := true,
           inTUContext := itu, type := .error, attrs := { conversionAttr := true } }, [])) ∧
    (validateAttributes tu
       { name := nm, isFuncDeclV := true, isOperatorV := true, isInstanceMemberV := false,
         inTUContext := itu, type := .error, attrs := { infixAttr := some i } }
      = ({ name := nm, isFuncDeclV := true, isOperatorV := true, isInstanceMemberV := false,
           inTUContext := itu, type := .error, attrs := {} },
         [DiagKind.invalidInfixLeftInput])) := by
  constructor
  · simp [validateAttributes, Id.run, Ty.isErrorTy]
  · simp [validateAttributes, Id.run, numArguments]

/-- C5: evaluation at the failing input.  With one imported module declaring
an infix `+` (precedence 100) the operator inherits it; importing a second
module whose infix `+` has precedence 90 makes the SECOND module's attribute
win, because the source's `break` exits only the inner result loop, never the
module loop — contradicting the claim's "first hit wins, no later module's
attribute overrides an earlier hit". -/
theorem claim_C5 :
    (validateAttributes { importedMods := [cxModA] } cxPlus).1.attrs.infixAttr
        = some (1, 100) ∧
    (validateAttributes { importedMods := [cxModA, cxModB] } cxPlus).1.attrs.infixAttr
        = some (1, 90) ∧
    (validateAttributes { importedMods := [cxModA, cxModB] } cxPlus).2 = [] := by
  decide

end SwiftDeclCheck

namespace SwiftDeclCheck

/-- Member visiting distributes over list append. -/
theorem structVisitMembers_append (env : SemaEnv) (fp sp : Bool) (l1 l2 : List StructMember)
    (st : TcState) :
    structVisitMembers env fp sp (l1 ++ l2) st =
      ((structVisitMembers env fp sp l1 st).1 ++
        (structVisitMembers env fp sp l2 (structVisitMembers env fp sp l1 st).2).1,
       (structVisitMembers env fp sp l2 (structVisitMembers env fp sp l1 st).2).2) := by
  induction l1 generalizing st with
  | nil => simp [structVisitMembers]
  | cons m rest ih =>
    cases m <;> simp [structVisitMembers, ih]

/-- Unfolding lemma for `structCtorFields` on a cons. -/
theorem structCtorFields_cons (m : StructMember) (ms : List StructMember) :
    structCtorFields (m :: ms) =
      (match m with
       | .varMem v => if !v.isPropertyV then [(v.name, v.type, false)] else []
       | _ => []) ++ structCtorFields ms := by
  cases m <;> simp [structCtorFields, List.filterMap_cons]
  split <;> simp_all

/-- Member visiting does not change the synthesised-constructor fields
(var members are untouched by `visit`). -/
theorem structVisitMembers_fields (env : SemaEnv) (fp sp : Bool) (ms : List StructMember)
    (st : TcState) :
    structCtorFields (structVisitMembers env fp sp ms st).1 = structCtorFields ms := by
  induction ms generalizing st with
  | nil => simp [structVisitMembers]
  | cons m rest ih =>
    cases m <;> simp [structVisitMembers, structCtorFields_cons, ih]

/-- Overwriting the last member, when it is an element decl, rewrites
exactly that member. -/
theorem structSetCtor_append (createTy argTy : Ty) (l : List StructMember)
    (e : OneOfElemState) :
    structSetCtor createTy argTy (l ++ [.elemMem e]) =
      l ++ [.elemMem { e with type := some createTy, argumentTyLoc := some argTy }] := by
  induction l with
  | nil => simp [structSetCtor]
  | cons m rest ih =>
    have h1 : structSetCtor createTy argTy ((m :: rest) ++ [.elemMem e]) =
        m :: structSetCtor createTy argTy (rest ++ [.elemMem e]) := by
      cases rest with
      | nil => cases m <;> rfl
      | cons m2 rest2 => cases m <;> rfl
    rw [List.cons_append] at h1
    rw [List.cons_append, h1, ih]
    simp

end SwiftDeclCheck

namespace SwiftDeclCheck

/-- C2: for every struct whose last member is the synthesised element
constructor, after first-pass (or neither-pass) checking the last member's
type is `Tuple(non-property Var fields, labeled, in source order) → S` and
its argument TypeLoc holds that tuple type. -/
theorem claim_C2 (env : SemaEnv) (fp : Bool) (sd : StructState) (st : TcState)
    (ms0 : List StructMember) (e : OneOfElemState)
    (hlast : sd.members = ms0 ++ [.elemMem e]) :
    ∃ ms1 e',
      (visitStructDecl env fp false sd st).1.members = ms1 ++ [.elemMem e'] ∧
      e'.type = some (.fnTy (.tupleTy (structCtorFields sd.members)) sd.declaredTyInContext) ∧
      e'.argumentTyLoc = some (.tupleTy (structCtorFields sd.members)) := by
  simp only [visitStructDecl, Bool.not_false, if_true, Bool.false_eq_true, if_false]
  rw [hlast]
  rw [structVisitMembers_fields, structVisitMembers_append]
  simp only [structVisitMembers]
  rw [structSetCtor_append]
  exact ⟨_, _, rfl, rfl, rfl⟩

end SwiftDeclCheck

namespace SwiftDeclCheck

/-- Witness for C2 on a concrete struct with a stored var and a property. -/
theorem claim_C2_witness :
    ∃ ms1 e',
      (visitStructDecl envId true false cxStruct {}).1.members = ms1 ++ [.elemMem e'] ∧
      e'.type = some (.fnTy (.tupleTy (structCtorFields cxStruct.members))
                       cxStruct.declaredTyInContext) ∧
      e'.argumentTyLoc = some (.tupleTy (structCtorFields cxStruct.members)) :=
  claim_C2 envId true cxStruct {}
    [.varMem { name := "x", type := .structTy 0 },
     .varMem { name := "p", type := .structTy 1, isPropertyV := true }]
    { inOneOf := false } (by rfl)

/-- Counterexample to C1 as stated: a `OneOfElementDecl` whose payload type
fails validation, and a `SubscriptDecl` whose index pattern fails
type-checking, end the pass schedule with their type slot still unset. -/
theorem claim_C1_counterexample :
    (runPasses envValFail {} (.oneOfElementD cxBadElem) {}).1.typeSlot = none ∧
    (runPasses envPatFail {} (.subscriptD cxBadSubscript) {}).1.typeSlot = none := by
  constructor <;> rfl

/-- Attribute validation on a non-operator decl with an empty attribute set
emits nothing and changes nothing. -/
theorem validateAttributes_quiet (tu : TUInfo) (vd : VDecl)
    (hop : vd.isOperatorV = false) (hat : vd.attrs = {}) :
    validateAttributes tu vd = (vd, []) := by
  simp [validateAttributes, Id.run, hop, hat]

/-- C8: a `ConstructorDecl` outside a type context draws
`constructor_not_member` exactly once and checking continues: the decl still
receives `ArgsType → ThisType` when its argument pattern type-checks
(polymorphic when generic parameters are present) and ErrorType when the
pattern fails; the implicit `this` decl is seeded. -/
theorem claim_C8 (env : SemaEnv) (tu : TUInfo) (fp : Bool) (st : TcState)
    (cd : ConstructorState)
    (hctx : cd.inTypeContext = false) (hgp : cd.genericParams = none)
    (hop : cd.vd.isOperatorV = false) (hat : cd.vd.attrs = {}) :
    ((visitConstructorDecl env tu fp false cd st).2.diags
        = st.diags ++ [.constructorNotMember]) ∧
    (env.patternCheck cd.argumentsP fp = none →
      (visitConstructorDecl env tu fp false cd st).1.type = some .error) ∧
    (∀ p' argsTy, env.patternCheck cd.argumentsP fp = some (p', argsTy) →
      (visitConstructorDecl env tu fp false cd st).1.type = some (.fnTy argsTy cd.thisTy)) ∧
    ((visitConstructorDecl env tu fp false cd st).1.implicitThisTy = some cd.thisTy) ∧
    (∀ gpl p' argsTy, env.patternCheck cd.argumentsP fp = some (p', argsTy) →
      (visitConstructorDecl env tu fp false { cd with genericParams := some gpl } st).1.type
        = some (.polyFnTy argsTy cd.thisTy)) := by
  have hq : ∀ t, validateAttributes tu { cd.vd with type := t } =
      ({ cd.vd with type := t }, []) :=
    fun t => validateAttributes_quiet tu _ hop hat
  refine ⟨?_, ?_, ?_, ?_, ?_⟩
  · simp [visitConstructorDecl, checkGenericParams, hctx, hgp, TcState.diag, hq]
    cases h : env.patternCheck cd.argumentsP fp <;> simp [h, hq]
  · intro h
    simp [visitConstructorDecl, checkGenericParams, hctx, hgp, h, hq]
  · intro p' argsTy h
    simp [visitConstructorDecl, checkGenericParams, hctx, hgp, h, hq]
  · simp [visitConstructorDecl, checkGenericParams, hctx, hgp, hq]
    cases h : env.patternCheck cd.argumentsP fp <;> simp [h, hq]
  · intro gpl p' argsTy h
    simp [visitConstructorDecl, checkGenericParams, hctx, h, hq,
          gpIntake, gpScan1, gpScan2]

end SwiftDeclCheck

namespace SwiftDeclCheck

/-- C1 (amended): after `typeCheckDecl(D, firstPass := true)` followed (for
module-scope decls) by the second pass, a `OneOfElementDecl` whose payload
type fails validation and a `SubscriptDecl` whose index pattern fails
type-checking are left with their type slot UNSET — the populated-slot
invariant fails for exactly these paths — while the corresponding success
paths do populate the slot. -/
theorem claim_C1 (env : SemaEnv) (tu : TUInfo) (st : TcState)
    (ed ed2 : OneOfElemState) (sd sd2 : SubscriptState) (a b b' : Ty)
    (p2 : PatternM) (ity : Ty)
    (h1 : ed.inOneOf = true) (h2 : ed.argumentTyLoc = some a)
    (h3 : env.validate a true = none) (h4 : ed.type = none)
    (h6 : env.patternCheck sd.indices true = none) (h7 : sd.type = none)
    (g1 : ed2.inOneOf = true) (g2 : ed2.argumentTyLoc = some b)
    (g3 : env.validate b true = some b')
    (g6 : env.patternCheck sd2.indices true = some (p2, ity))
    (g7 : env.validate sd2.elementTyLoc true = some sd2.elementTyLoc) :
    ((runPasses env tu (.oneOfElementD ed) st).1.typeSlot = none) ∧
    ((runPasses env tu (.subscriptD sd) st).1.typeSlot = none) ∧
    ((runPasses env tu (.oneOfElementD ed2) st).1.typeSlot
        = some (.fnTy b' ed2.enclosingTy)) ∧
    ((runPasses env tu (.subscriptD sd2) st).1.typeSlot
        = some (.fnTy ity sd2.elementTyLoc)) := by
  refine ⟨?_, ?_, ?_, ?_⟩
  · cases hm : ed.inModule <;>
      simp [runPasses, typeCheckDecl, visitOneOfElementDecl, DeclM.inModuleContext,
            DeclM.typeSlot, h1, h2, h3, h4, hm]
  · cases hm : sd.inModule <;>
      cases hv : env.validate sd.elementTyLoc true <;>
        simp [runPasses, typeCheckDecl, visitSubscriptDecl, DeclM.inModuleContext,
              DeclM.typeSlot, h6, h7, hm, hv]
  · cases hm : ed2.inModule <;>
      simp [runPasses, typeCheckDecl, visitOneOfElementDecl, DeclM.inModuleContext,
            DeclM.typeSlot, g1, g2, g3, hm]
  · cases hm : sd2.inModule <;>
      simp [runPasses, typeCheckDecl, visitSubscriptDecl, DeclM.inModuleContext,
            DeclM.typeSlot, g6, g7, hm]

/-- Witness for C1 on concrete failing and succeeding decls. -/
theorem claim_C1_witness :
    ((runPasses cxEnvMixed {} (.oneOfElementD cxBadElem) {}).1.typeSlot = none) ∧
    ((runPasses cxEnvMixed {} (.subscriptD cxBadSubscript) {}).1.typeSlot = none) ∧
    ((runPasses cxEnvMixed {} (.oneOfElementD cxGoodElem) {}).1.typeSlot
        = some (.fnTy (.structTy 2) cxGoodElem.enclosingTy)) ∧
    ((runPasses cxEnvMixed {} (.subscriptD cxGoodSubscript) {}).1.typeSlot
        = some (.fnTy (.tupleTy []) cxGoodSubscript.elementTyLoc)) :=
  claim_C1 cxEnvMixed {} {} cxBadElem cxGoodElem cxBadSubscript cxGoodSubscript
    (.paramRefTy "X") (.structTy 2) (.structTy 2)
    (.namedP { name := "i", type := .structTy 5 }) (.tupleTy [])
    rfl rfl rfl rfl rfl rfl rfl rfl rfl rfl rfl

/-- Witness for C8 on a concrete top-level constructor. -/
theorem claim_C8_witness :
    ((visitConstructorDecl envPatFail {} true false cxTopCtor {}).2.diags
        = [DiagKind.constructorNotMember]) ∧
    ((visitConstructorDecl envPatFail {} true false cxTopCtor {}).1.type = some .error) ∧
    ((visitConstructorDecl envId {} true false cxTopCtor {}).1.type
        = some (.fnTy (.tupleTy []) cxTopCtor.thisTy)) := by
  refine ⟨?_, ?_, ?_⟩
  · exact (claim_C8 envPatFail {} true {} cxTopCtor rfl rfl rfl rfl).1
  · exact (claim_C8 envPatFail {} true {} cxTopCtor rfl rfl rfl rfl).2.1 rfl
  · exact (claim_C8 envId {} true {} cxTopCtor rfl rfl rfl rfl).2.2.1 .anyP (.tupleTy []) rfl

end SwiftDeclCheck

namespace SwiftDeclCheck

/-- Counterexample to C9 as stated: in the first pass, a pattern binding
with an initializer only type-checks its pattern — `typeCheckExpression` is
never invoked (no `evExprCheck` in the trace). -/
theorem claim_C9_counterexample :
    ((typeCheckDecl envId { isLibrary := true } (.patternBindingD cxPBD) true {}).2.trace
        = [TraceEv.evPatternCheck true]) ∧
    (TraceEv.evExprCheck ∉
      (typeCheckDecl envId { isLibrary := true } (.patternBindingD cxPBD) true {}).2.trace) := by
  constructor
  · rfl
  · decide

/-- C9 (amended): the initializer sequence (typed pattern first to obtain
the destination type, then the initializer, then — when no destination type
was known — materialisable conversion and pattern coercion) runs only when an
initializer exists and the visit is NOT the first pass (second pass when
delayed, or a neither-pass visit); in the first pass only the pattern is
checked when not delayed and nothing is checked when delayed; with no
initializer the pattern alone is checked. -/
theorem claim_C9 (env : SemaEnv) (tu : TUInfo) (sp : Bool) (pbd : PBDState)
    (st : TcState) (i e' e'' : ExprM) (sub pc : PatternM) (ann t tc : Ty) (p' : PatternM) :
    (pbd.init.isSome = true → (!tu.isLibrary && pbd.inModule) = false →
      env.patternCheck pbd.pattern true = some (p', t) →
      ((visitPatternBindingDecl env tu true false pbd st).2.trace
          = st.trace ++ [.evPatternCheck true]) ∧
      ((visitPatternBindingDecl env tu true false pbd st).1.init = pbd.init)) ∧
    ((!tu.isLibrary && pbd.inModule) = true →
      (visitPatternBindingDecl env tu true false pbd st).2.trace = st.trace) ∧
    ((sp && !(!tu.isLibrary && pbd.inModule)) = false →
      pbd.init = some i → pbd.pattern = .typedP sub ann →
      env.patternCheck pbd.pattern false = some (p', t) →
      env.exprCheck i (some t) = some e' →
      ((visitPatternBindingDecl env tu false sp pbd st).2.trace
          = st.trace ++ [.evPatternCheck false, .evExprCheck]) ∧
      ((visitPatternBindingDecl env tu false sp pbd st).1.init = some e') ∧
      ((visitPatternBindingDecl env tu false sp pbd st).1.patType = some t)) ∧
    ((sp && !(!tu.isLibrary && pbd.inModule)) = false →
      pbd.init = some i → pbd.pattern.isTypedPat = false →
      env.exprCheck i none = some e' →
      env.convToMat e' = some e'' →
      env.coerce pbd.pattern e''.ty false = some (pc, tc) →
      ((visitPatternBindingDecl env tu false sp pbd st).2.trace
          = st.trace ++ [.evExprCheck, .evConvMat, .evCoerce]) ∧
      ((visitPatternBindingDecl env tu false sp pbd st).1.init = some e'') ∧
      ((visitPatternBindingDecl env tu false sp pbd st).1.patType = some tc)) ∧
    ((sp && !(!tu.isLibrary && pbd.inModule)) = false →
      pbd.init = none → (!(!tu.isLibrary && pbd.inModule)) = true →
      (visitPatternBindingDecl env tu false sp pbd st).2.trace
          = st.trace ++ [.evPatternCheck false]) := by
  refine ⟨?_, ?_, ?_, ?_, ?_⟩
  · intro hi hd hp
    constructor <;>
      simp [visitPatternBindingDecl, Id.run, hi, hd, hp, TcState.ev, TcState.diag]
  · intro hd
    cases hi : pbd.init <;>
      simp [visitPatternBindingDecl, Id.run, hi, hd, TcState.ev, TcState.diag]
  · intro hsd hi hpat hp he
    rw [hpat] at hp
    cases hsp : sp with
    | false =>
      refine ⟨?_, ?_, ?_⟩ <;>
        simp [visitPatternBindingDecl, Id.run, hi, hpat, hp, he, TcState.ev, TcState.diag]
    | true =>
      rw [hsp] at hsd
      simp only [Bool.true_and, Bool.not_eq_false'] at hsd
      obtain ⟨hl, hm⟩ := Bool.and_eq_true_iff.mp hsd
      have hl' : tu.isLibrary = false := by simpa using hl
      refine ⟨?_, ?_, ?_⟩ <;>
        simp [visitPatternBindingDecl, Id.run, hi, hpat, hp, he, hl', hm,
              TcState.ev, TcState.diag]
  · intro hsd hi hnt he hc hco
    cases hsp : sp with
    | false =>
      cases hpat : pbd.pattern <;> simp [hpat, PatternM.isTypedPat] at hnt <;>
        rw [hpat] at hco <;>
        refine ⟨?_, ?_, ?_⟩ <;>
          simp [visitPatternBindingDecl, Id.run, hi, hpat, he, hc, hco,
                TcState.ev, TcState.diag]
    | true =>
      rw [hsp] at hsd
      simp only [Bool.true_and, Bool.not_eq_false'] at hsd
      obtain ⟨hl, hm⟩ := Bool.and_eq_true_iff.mp hsd
      have hl' : tu.isLibrary = false := by simpa using hl
      cases hpat : pbd.pattern <;> simp [hpat, PatternM.isTypedPat] at hnt <;>
        rw [hpat] at hco <;>
        refine ⟨?_, ?_, ?_⟩ <;>
          simp [visitPatternBindingDecl, Id.run, hi, hpat, he, hc, hco, hl', hm,
                TcState.ev, TcState.diag]
  · intro hsd hi hd
    cases hsp : sp with
    | false =>
      cases hq : env.patternCheck pbd.pattern false <;>
        simp [visitPatternBindingDecl, Id.run, hi, hd, hq, TcState.ev, TcState.diag]
    | true =>
      rw [hsp] at hsd
      simp only [Bool.true_and, Bool.not_eq_false'] at hsd
      rw [hsd] at hd
      simp at hd

end SwiftDeclCheck

namespace SwiftDeclCheck

/-- Witness for C9 across the five regimes at concrete bindings. -/
theorem claim_C9_witness :
    ((visitPatternBindingDecl envId { isLibrary := true } true false cxPBD {}).2.trace
        = [TraceEv.evPatternCheck true]) ∧
    ((visitPatternBindingDecl envId { isLibrary := true } true false cxPBD {}).1.init
        = cxPBD.init) ∧
    ((visitPatternBindingDecl envId { isLibrary := false } true false cxPBD {}).2.trace
        = []) ∧
    ((visitPatternBindingDecl envId { isLibrary := false } false true cxPBD {}).2.trace
        = [TraceEv.evPatternCheck false, TraceEv.evExprCheck]) ∧
    ((visitPatternBindingDecl envId { isLibrary := false } false true cxPBD {}).1.init
        = some cxInitE) ∧
    ((visitPatternBindingDecl envId { isLibrary := true } false false cxPBD2 {}).2.trace
        = [TraceEv.evExprCheck, TraceEv.evConvMat, TraceEv.evCoerce]) ∧
    ((visitPatternBindingDecl envId { isLibrary := true } false false cxPBD2 {}).1.init
        = some cxInitE) ∧
    ((visitPatternBindingDecl envId { isLibrary := true } false false cxPBD3 {}).2.trace
        = [TraceEv.evPatternCheck false]) :=
  ⟨((claim_C9 envId { isLibrary := true } false cxPBD {} cxInitE cxInitE cxInitE
      .anyP .anyP .error (.tupleTy []) .error cxPBD.pattern).1 rfl rfl rfl).1,
   ((claim_C9 envId { isLibrary := true } false cxPBD {} cxInitE cxInitE cxInitE
      .anyP .anyP .error (.tupleTy []) .error cxPBD.pattern).1 rfl rfl rfl).2,
   (claim_C9 envId { isLibrary := false } false cxPBD {} cxInitE cxInitE cxInitE
      .anyP .anyP .error (.tupleTy []) .error cxPBD.pattern).2.1 rfl,
   ((claim_C9 envId { isLibrary := false } true cxPBD {} cxInitE cxInitE cxInitE
      .anyP .anyP (.structTy 0) (.tupleTy []) .error cxPBD.pattern).2.2.1
      rfl rfl rfl rfl rfl).1,
   ((claim_C9 envId { isLibrary := false } true cxPBD {} cxInitE cxInitE cxInitE
      .anyP .anyP (.structTy 0) (.tupleTy []) .error cxPBD.pattern).2.2.1
      rfl rfl rfl rfl rfl).2.1,
   ((claim_C9 envId { isLibrary := true } false cxPBD2 {} cxInitE cxInitE cxInitE
      .anyP cxPBD2.pattern .error .error (.structTy 0) .anyP).2.2.2.1
      rfl rfl rfl rfl rfl rfl).1,
   ((claim_C9 envId { isLibrary := true } false cxPBD2 {} cxInitE cxInitE cxInitE
      .anyP cxPBD2.pattern .error .error (.structTy 0) .anyP).2.2.2.1
      rfl rfl rfl rfl rfl rfl).2.1,
   (claim_C9 envId { isLibrary := true } false cxPBD3 {} cxInitE cxInitE cxInitE
      .anyP .anyP .error .error .error .anyP).2.2.2.2 rfl rfl rfl⟩

end SwiftDeclCheck

namespace SwiftDeclCheck

/-- Counterexample to C6 as stated: re-visiting a `ProtocolDecl` in the
first pass replaces the archetype already written into its associated type's
underlying-type slot with a freshly allocated one (different identity), so
the second visit mutates a slot already set. -/
theorem claim_C6_counterexample :
    (protoFirstAliasUnderlying
        (visitProtocolDecl envId true false cxProto {}).1
      = some (.archetypeTy 0 "A" [] none)) ∧
    (protoFirstAliasUnderlying
        (visitProtocolDecl envId true false
          (visitProtocolDecl envId true false cxProto {}).1
          (visitProtocolDecl envId true false cxProto {}).2).1
      = some (.archetypeTy 1 "A" [] none)) ∧
    (protoFirstAliasUnderlying
        (visitProtocolDecl envId true false
          (visitProtocolDecl envId true false cxProto {}).1
          (visitProtocolDecl envId true false cxProto {}).2).1
      ≠ protoFirstAliasUnderlying (visitProtocolDecl envId true false cxProto {}).1) := by
  refine ⟨rfl, rfl, ?_⟩
  intro h
  simp only [show protoFirstAliasUnderlying
      (visitProtocolDecl envId true false
        (visitProtocolDecl envId true false cxProto {}).1
        (visitProtocolDecl envId true false cxProto {}).2).1
      = some (.archetypeTy 1 "A" [] none) from rfl,
    show protoFirstAliasUnderlying (visitProtocolDecl envId true false cxProto {}).1
      = some (.archetypeTy 0 "A" [] none) from rfl] at h
  simp at h

/-- C6 (amended): a second-pass visit of a `ProtocolDecl` is a no-op, but
every non-second-pass visit overwrites each associated type's underlying
slot with a fresh archetype whose identity is the current allocation
counter — so re-visiting in the same pass is NOT a no-op on slots already
set. -/
theorem claim_C6 (env : SemaEnv) (fp : Bool) (pd : ProtocolState) (st : TcState)
    (a : TypeAliasState) (rest : List ProtoMember)
    (hm : pd.members = .aliasMem a :: rest)
    (hv : ∀ t, env.validate t fp = some t) :
    (visitProtocolDecl env fp true pd st = (pd, st)) ∧
    (protoFirstAliasUnderlying (visitProtocolDecl env fp false pd st).1
      = some (.archetypeTy st.nextArchId a.name ((checkInherited env fp a.inherited).1)
          (if a.name == "This" then some 0 else none))) := by
  constructor
  · simp [visitProtocolDecl]
  · cases hctx : a.inProtocolContext <;>
      simp [visitProtocolDecl, protoAssignArchetypes, protoVisitMembers,
            visitTypeAliasDecl, protoFirstAliasUnderlying, hm, hv, hctx,
            TcState.diag]

end SwiftDeclCheck

namespace SwiftDeclCheck

/-- Characterisation of `Ty.isParamRef`. -/
theorem isParamRef_iff (nm : String) (t : Ty) :
    t.isParamRef nm = true ↔ t = .paramRefTy nm := by
  cases t <;> simp [Ty.isParamRef]

/-- Checking an inheritance clause of validating existentials is the
identity and diagnoses nothing. -/
theorem checkInherited_id (env : SemaEnv) (fp : Bool) (inh : List Ty)
    (h : ∀ t ∈ inh, env.validate t fp = some t ∧ t.isExistentialType = true) :
    checkInherited env fp inh = (inh, []) := by
  induction inh with
  | nil => rfl
  | cons t rest ih =>
    obtain ⟨hv, he⟩ := h t (List.mem_cons_self t rest)
    simp [checkInherited, checkInheritedEntry, hv, he,
          ih (fun t' ht' => h t' (List.mem_cons_of_mem t ht'))]

/-- Parameter intake over validating existential clauses is the identity. -/
theorem gpIntake_id (env : SemaEnv) (fp : Bool) (params : List TypeParamM)
    (h : ∀ p ∈ params, ∀ t ∈ p.inherited,
      env.validate t fp = some t ∧ t.isExistentialType = true) :
    gpIntake env fp params = (params, []) := by
  induction params with
  | nil => rfl
  | cons p rest ih =>
    simp [gpIntake, checkInherited_id env fp p.inherited
            (h p (List.mem_cons_self p rest)),
          ih (fun p' hp' => h p' (List.mem_cons_of_mem p hp'))]

/-- When every Conformance requirement's protocol validates and is
existential, the first scan keeps all requirements and adds them all to the
builder. -/
theorem gpScan1_id (env : SemaEnv) (fp : Bool) (reqs : List RequirementM)
    (h : ∀ r ∈ reqs, r.kind = ReqKind.conformance →
      (env.validate r.sndTy fp).isSome = true ∧ r.sndTy.isExistentialType = true) :
    gpScan1 env fp reqs = (reqs, reqs, []) := by
  induction reqs with
  | nil => rfl
  | cons r rest ih =>
    have hrest := ih (fun r' hr' => h r' (List.mem_cons_of_mem r hr'))
    cases hk : r.kind with
    | sameType => simp [gpScan1, gpScan1Step, hk, hrest]
    | conformance =>
      obtain ⟨hv, he⟩ := h r (List.mem_cons_self r rest) hk
      obtain ⟨t', ht'⟩ := Option.isSome_iff_exists.mp hv
      simp [gpScan1, gpScan1Step, hk, ht', he, hrest]

/-- C3: after `checkGenericParams` (with well-formed inheritance clauses
and requirement protocols), every generic parameter's underlying slot holds
an archetype or ErrorType — assignment is total — and the archetype's
conformance list equals, as a set, the union of the parameter's declared
inherited protocols and the protocols of the Conformance requirements whose
subject is that parameter. -/
theorem claim_C3 (env : SemaEnv) (fp : Bool) (gpl : GenericParamListM) (base : Nat)
    (hinh : ∀ p ∈ gpl.params, ∀ t ∈ p.inherited,
      env.validate t fp = some t ∧ t.isExistentialType = true)
    (hreq : ∀ r ∈ gpl.reqs, r.kind = ReqKind.conformance →
      (env.validate r.sndTy fp).isSome = true ∧ r.sndTy.isExistentialType = true) :
    ∃ out rest,
      checkGenericParams env fp base (some gpl) = (some out, rest) ∧
      out.params.length = gpl.params.length ∧
      ∀ i (hi : i < out.params.length) (hi' : i < gpl.params.length),
        ((∃ id nm conf idx,
            (out.params.get ⟨i, hi⟩).underlying = some (.archetypeTy id nm conf idx)) ∨
          (out.params.get ⟨i, hi⟩).underlying = some .error) ∧
        ∃ conf,
          (out.params.get ⟨i, hi⟩).underlying
            = some (.archetypeTy (base + i) (gpl.params.get ⟨i, hi'⟩).name conf (some i)) ∧
          ∀ t, t ∈ conf ↔
            (t ∈ (gpl.params.get ⟨i, hi'⟩).inherited ∨
             ∃ r ∈ gpl.reqs, r.kind = ReqKind.conformance ∧
               r.fstTy = .paramRefTy (gpl.params.get ⟨i, hi'⟩).name ∧ t = r.sndTy) := by
  have h1 := gpIntake_id env fp gpl.params hinh
  have h2 := gpScan1_id env fp gpl.reqs hreq
  refine ⟨{ params := assignArchetypes base gpl.reqs gpl.params,
            reqs := gpScan2 env fp gpl.reqs },
          (base + gpl.params.length, []), ?_, ?_, ?_⟩
  · simp [checkGenericParams, h1, h2]
  · simp [assignArchetypes, List.length_mapIdx]
  · intro i hi hi'
    have hg : ((assignArchetypes base gpl.reqs gpl.params).get
          ⟨i, by simpa [assignArchetypes, List.length_mapIdx] using hi'⟩).underlying
        = some (.archetypeTy (base + i) (gpl.params.get ⟨i, hi'⟩).name
            (archConformances gpl.reqs (gpl.params.get ⟨i, hi'⟩)) (some i)) := by
      simp [assignArchetypes, List.get_mapIdx]
    constructor
    · exact Or.inl ⟨base + i, (gpl.params.get ⟨i, hi'⟩).name,
        archConformances gpl.reqs (gpl.params.get ⟨i, hi'⟩), some i, by
          simpa [checkGenericParams, h1, h2] using hg⟩
    · refine ⟨archConformances gpl.reqs (gpl.params.get ⟨i, hi'⟩), by
        simpa [checkGenericParams, h1, h2] using hg, ?_⟩
      intro t
      simp [archConformances, List.mem_append, List.mem_map, List.mem_filter,
            isParamRef_iff, beq_iff_eq]
      constructor
      · rintro (h | ⟨r, ⟨hr, hk, hs⟩, ht⟩)
        · exact Or.inl h
        · exact Or.inr ⟨r, hr, hk, hs, ht.symm⟩
      · rintro (h | ⟨r, hr, hk, hs, ht⟩)
        · exact Or.inl h
        · exact Or.inr ⟨r, ⟨hr, hk, hs⟩, ht.symm⟩

end SwiftDeclCheck

namespace SwiftDeclCheck

/-- The source's first-scan step computes the spec's per-requirement
description. -/
theorem gpScan1Step_eq (env : SemaEnv) (fp : Bool) (r : RequirementM) :
    gpScan1Step env fp r =
      (specFirstScanReq env fp r, specFirstScanSurvives env fp r,
       specFirstScanDiags env fp r) := by
  cases hk : r.kind <;>
    cases hv : env.validate r.sndTy fp <;>
      cases he : r.sndTy.isExistentialType <;>
        simp [gpScan1Step, specFirstScanReq, specFirstScanSurvives,
              specFirstScanDiags, specValidateFails, hk, hv, he]

/-- A requirement surviving the first scan passes through it unchanged. -/
theorem specFirstScanSurvives_id (env : SemaEnv) (fp : Bool) (r : RequirementM)
    (h : specFirstScanSurvives env fp r = true) : specFirstScanReq env fp r = r := by
  cases hk : r.kind <;>
    simp [specFirstScanSurvives, specFirstScanReq, hk] at h ⊢
  obtain ⟨h1, h2⟩ := h
  simp [h1, h2]

/-- The source's second-scan step computes the spec's description. -/
theorem gpScan2Step_eq (env : SemaEnv) (fp : Bool) (r : RequirementM) :
    gpScan2Step env fp r = specSecondScanReq env fp r := by
  cases hk : r.kind <;>
    cases hv : env.validate r.fstTy fp <;>
      cases hw : env.validate r.sndTy fp <;>
        simp [gpScan2Step, specSecondScanReq, specValidateFails, hk, hv, hw]

/-- The intake loop as a map over the parameter list. -/
theorem gpIntake_eq (env : SemaEnv) (fp : Bool) (params : List TypeParamM) :
    gpIntake env fp params =
      (params.map fun p => { p with inherited := (checkInherited env fp p.inherited).1 },
       (params.map fun p => (checkInherited env fp p.inherited).2).flatten) := by
  induction params with
  | nil => rfl
  | cons p rest ih => simp [gpIntake, ih]

/-- The first-scan loop as a map, a filter of survivors, and the flattened
diagnostics. -/
theorem gpScan1_eq (env : SemaEnv) (fp : Bool) (reqs : List RequirementM) :
    gpScan1 env fp reqs =
      (reqs.map (specFirstScanReq env fp),
       reqs.filter (specFirstScanSurvives env fp),
       (reqs.map (specFirstScanDiags env fp)).flatten) := by
  induction reqs with
  | nil => rfl
  | cons r rest ih =>
    simp [gpScan1, gpScan1Step_eq, ih, List.filter_cons]
    cases hs : specFirstScanSurvives env fp r <;>
      simp [specFirstScanSurvives_id env fp r, hs]

/-- C4: `checkGenericParams` equals the spec's four-phase pipeline: the
first scan validates only Conformance protocol operands (poisoning
non-existential ones with a diagnostic) and defers SameType requirements;
archetype assignment uses exactly the first-scan survivors; the second scan
then validates Conformance subjects and both SameType sides, poisoning
failed operands and continuing. -/
theorem claim_C4 (env : SemaEnv) (fp : Bool) (base : Nat)
    (gps : Option GenericParamListM) :
    checkGenericParams env fp base gps = checkGenericParamsPhased env fp base gps := by
  cases gps with
  | none => rfl
  | some gpl =>
    simp [checkGenericParams, checkGenericParamsPhased, gpIntake_eq, gpScan1_eq,
          gpScan2, gpScan2Step_eq, assignArchetypes, List.length_map]

end SwiftDeclCheck

namespace SwiftDeclCheck

/-- Witness for C3 on a one-parameter generic list with one Conformance
requirement. -/
theorem claim_C3_witness :
    ∃ out rest,
      checkGenericParams envId true 0 (some cxGpl) = (some out, rest) ∧
      out.params.length = cxGpl.params.length ∧
      ∀ i (hi : i < out.params.length) (hi' : i < cxGpl.params.length),
        ((∃ id nm conf idx,
            (out.params.get ⟨i, hi⟩).underlying = some (.archetypeTy id nm conf idx)) ∨
          (out.params.get ⟨i, hi⟩).underlying = some .error) ∧
        ∃ conf,
          (out.params.get ⟨i, hi⟩).underlying
            = some (.archetypeTy (0 + i) (cxGpl.params.get ⟨i, hi'⟩).name conf (some i)) ∧
          ∀ t, t ∈ conf ↔
            (t ∈ (cxGpl.params.get ⟨i, hi'⟩).inherited ∨
             ∃ r ∈ cxGpl.reqs, r.kind = ReqKind.conformance ∧
               r.fstTy = .paramRefTy (cxGpl.params.get ⟨i, hi'⟩).name ∧ t = r.sndTy) :=
  claim_C3 envId true cxGpl 0
    (by
      intro p hp t ht
      simp [cxGpl] at hp
      subst hp
      simp at ht
      subst ht
      exact ⟨rfl, rfl⟩)
    (by
      intro r hr hk
      simp [cxGpl] at hr
      subst hr
      exact ⟨rfl, rfl⟩)

/-- Witness for C6 on a concrete protocol with one associated type. -/
theorem claim_C6_witness :
    (visitProtocolDecl envId true true cxProto {} = (cxProto, ({} : TcState))) ∧
    (protoFirstAliasUnderlying (visitProtocolDecl envId true false cxProto {}).1
      = some (.archetypeTy 0 "A" [] none)) :=
  claim_C6 envId true cxProto {} { name := "A", inProtocolContext := true } [] rfl
    (fun _ => rfl)

end SwiftDeclCheck
